import Mathlib

/-!
Shallow embedding of `Sources/libmcp/shims.c` and its header
`Sources/libmcp/include/shims.h`: fixed-arity C wrappers around the
variadic POSIX calls `open`, `fcntl` and `ioctl`.

The operating system itself is not part of the repository, so it is kept
abstract: a `Kernel` is a bundle of system-call behaviours over an explicit
state `KState` that carries the process-wide `errno`.  The C variadic
calling convention is made explicit: a variadic callee that reads an
argument slot the caller did not supply obtains an indeterminate word from
the call context (`CallCtx.stackJunk`).  Each shim is then translated
line-for-line from `shims.c` as a call through that variadic boundary.
-/

namespace LibmcpShims

/-- POSIX errno code for "no such file or directory". -/
def ENOENT : Int := 2

/-- POSIX open flag for read-only access (value 0 on the usual platforms). -/
def O_RDONLY : Int := 0

/-- Process/kernel state visible across a system call: the process-wide
`errno` cell and an abstract file-system component (paths currently
existing, with the permission mode they were created with). -/
structure KState where
  errno : Int
  fs : List (String × Nat)
  deriving Repr, DecidableEq

/-- The caller-side context of one C call: the indeterminate word a
variadic callee reads when it consumes an argument slot the caller never
supplied. -/
structure CallCtx where
  stackJunk : Nat
  deriving Repr, DecidableEq

/-- One supplied variadic argument at the C ABI boundary: either a C
`long` value or a pointer (addresses are modelled as naturals; the null
pointer is 0). -/
inductive VarArg where
  | long (v : Int)
  | ptr (p : Nat)
  deriving Repr, DecidableEq

/-- An abstract operating system.  `sysOpen` receives the permission mode
the variadic `open` resolved; `needsMode` tells for which flag values the
platform's `open` consumes a mode argument (e.g. when the file-creation
flag is present).  `sysFcntl` and `sysIoctl` receive the supplied variadic
arguments verbatim.  Each call returns its C `int` result together with
the successor state (which carries the errno the call left behind). -/
structure Kernel where
  needsMode : Int → Bool
  sysOpen : String → Int → Nat → KState → Int × KState
  sysFcntl : Int → Int → List VarArg → KState → Int × KState
  sysIoctl : Int → Nat → List VarArg → KState → Int × KState

/-- Modelled from the spec: the native variadic `open` entry point, which
is not repository code.  It consumes a mode word from the variadic list
exactly when the flags require one; if the caller supplied none, it reads
the indeterminate word of the call context.  Otherwise the mode slot is
ignored (normalised to 0 here, matching POSIX's "ignored unless the
creation flag is specified"). -/
def cOpenCall (K : Kernel) (ctx : CallCtx) (path : String) (oflag : Int)
    (varargs : List Nat) (s : KState) : Int × KState :=
  K.sysOpen path oflag
    (if K.needsMode oflag then varargs.headD ctx.stackJunk else 0) s

/-- Modelled from the spec: the native variadic `fcntl` entry point (not
repository code); the supplied variadic arguments reach the kernel
verbatim. -/
def cFcntlCall (K : Kernel) (fildes : Int) (cmd : Int)
    (varargs : List VarArg) (s : KState) : Int × KState :=
  K.sysFcntl fildes cmd varargs s

/-- Modelled from the spec: the native variadic `ioctl` entry point (not
repository code); the supplied variadic arguments reach the kernel
verbatim. -/
def cIoctlCall (K : Kernel) (fd : Int) (request : Nat)
    (varargs : List VarArg) (s : KState) : Int × KState :=
  K.sysIoctl fd request varargs s

/-- `int open_int(const char *path, int oflag) { return open(path, oflag); }`
(shims.c line 11): a variadic call to `open` supplying no variadic
argument. -/
def open_int (K : Kernel) (ctx : CallCtx) (path : String) (oflag : Int)
    (s : KState) : Int × KState :=
  cOpenCall K ctx path oflag [] s

/-- `int open_int_mode(const char *path, int oflag, mode_t mode)
{ return open(path, oflag, mode); }` (shims.c line 14): a variadic call to
`open` supplying the mode as the single variadic argument. -/
def open_int_mode (K : Kernel) (ctx : CallCtx) (path : String) (oflag : Int)
    (mode : Nat) (s : KState) : Int × KState :=
  cOpenCall K ctx path oflag [mode] s

/-- `int fcntl_int(int fildes, int cmd) { return fcntl(fildes, cmd); }`
(shims.c line 19): a variadic call to `fcntl` supplying no variadic
argument. -/
def fcntl_int (K : Kernel) (fildes : Int) (cmd : Int)
    (s : KState) : Int × KState :=
  cFcntlCall K fildes cmd [] s

/-- `int fcntl_int_flock(int fildes, int cmd, struct flock* flock)
{ return fcntl(fildes, cmd, flock); }` (shims.c line 22): the lock-record
pointer is forwarded verbatim as the single variadic argument. -/
def fcntl_int_flock (K : Kernel) (fildes : Int) (cmd : Int)
    (fl : Nat) (s : KState) : Int × KState :=
  cFcntlCall K fildes cmd [VarArg.ptr fl] s

/-- `int fcntl_int_long(int fildes, int cmd, long arg)
{ return fcntl(fildes, cmd, arg); }` (shims.c line 25): the long argument
is forwarded verbatim as the single variadic argument. -/
def fcntl_int_long (K : Kernel) (fildes : Int) (cmd : Int)
    (arg : Int) (s : KState) : Int × KState :=
  cFcntlCall K fildes cmd [VarArg.long arg] s

/-- `int ioctl_long(int fd, unsigned long request)
{ return ioctl(fd, request); }` (shims.c line 30): a variadic call to
`ioctl` supplying no variadic argument. -/
def ioctl_long (K : Kernel) (fd : Int) (request : Nat)
    (s : KState) : Int × KState :=
  cIoctlCall K fd request [] s

/-- `int ioctl_long_void(int fd, unsigned long request, void* data)
{ return ioctl(fd, request, data); }` (shims.c line 33): the data pointer
is forwarded verbatim as the single variadic argument. -/
def ioctl_long_void (K : Kernel) (fd : Int) (request : Nat)
    (data : Nat) (s : KState) : Int × KState :=
  cIoctlCall K fd request [VarArg.ptr data] s

/-- The operations declared by `Sources/libmcp/include/shims.h`, in
declaration order. -/
def shimInterface : List String :=
  ["open_int", "open_int_mode",
   "fcntl_int", "fcntl_int_flock", "fcntl_int_long",
   "ioctl_long", "ioctl_long_void"]

/-- Modelled from the spec: "directly invoking the two-argument form of
the underlying open operation with the same path and flags". -/
def specOpenTwoArg (K : Kernel) (ctx : CallCtx) (path : String)
    (oflag : Int) (s : KState) : Int × KState :=
  cOpenCall K ctx path oflag [] s

/-- Modelled from the spec: "the three-argument form of the underlying
open operation" with the given path, flags and mode. -/
def specOpenThreeArg (K : Kernel) (ctx : CallCtx) (path : String)
    (oflag : Int) (mode : Nat) (s : KState) : Int × KState :=
  cOpenCall K ctx path oflag [mode] s

/-- Modelled from the spec: "passing the same lock record to the
underlying fcntl operation". -/
def specFcntlWithFlock (K : Kernel) (fildes : Int) (cmd : Int) (fl : Nat)
    (s : KState) : Int × KState :=
  cFcntlCall K fildes cmd [VarArg.ptr fl] s

/-- Modelled from the spec: "the underlying fcntl operation's result for
the same long-integer argument". -/
def specFcntlWithLong (K : Kernel) (fildes : Int) (cmd : Int) (arg : Int)
    (s : KState) : Int × KState :=
  cFcntlCall K fildes cmd [VarArg.long arg] s

/-- Modelled from the spec: "the underlying ioctl operation invoked with
no extra argument". -/
def specIoctlNoExtra (K : Kernel) (fd : Int) (request : Nat)
    (s : KState) : Int × KState :=
  cIoctlCall K fd request [] s

/-- A platform where the file-creation flag is bit 6 (value 64, as on
Linux), so `open` consumes a mode word exactly when that bit is set. -/
def modelNeedsMode (oflag : Int) : Bool :=
  oflag.toNat.testBit 6

/-- Modelled from the spec: a concrete sample operating system used to
exercise the shims on closed inputs.  Opening an existing path succeeds;
opening a missing path with the creation flag creates it (recording the
mode); opening a missing path without it fails with -1 and errno ENOENT. -/
def modelKernel : Kernel where
  needsMode := modelNeedsMode
  sysOpen := fun path oflag mode s =>
    if (s.fs.map Prod.fst).contains path then
      (Int.ofNat (3 + s.fs.length), s)
    else if modelNeedsMode oflag then
      (Int.ofNat (3 + s.fs.length), { s with fs := (path, mode) :: s.fs })
    else
      (-1, { s with errno := ENOENT })
  sysFcntl := fun _ _ _ s => (0, s)
  sysIoctl := fun _ _ _ s => (0, s)

/-- C1: every shim returns the underlying system call's return value
verbatim and leaves the process-wide errno exactly as the native call set
it — for each of the seven shims and every argument tuple, both the
`int` result and the resulting errno coincide with those of the native
variadic call it forwards to; no error is added, translated, wrapped or
swallowed by the shim itself. -/
theorem shims_propagate_raw_outcome :
    ∀ (K : Kernel) (ctx : CallCtx) (s : KState),
      (∀ path oflag,
        (open_int K ctx path oflag s).1 = (cOpenCall K ctx path oflag [] s).1 ∧
        (open_int K ctx path oflag s).2.errno = (cOpenCall K ctx path oflag [] s).2.errno) ∧
      (∀ path oflag mode,
        (open_int_mode K ctx path oflag mode s).1 = (cOpenCall K ctx path oflag [mode] s).1 ∧
        (open_int_mode K ctx path oflag mode s).2.errno = (cOpenCall K ctx path oflag [mode] s).2.errno) ∧
      (∀ fildes cmd,
        (fcntl_int K fildes cmd s).1 = (cFcntlCall K fildes cmd [] s).1 ∧
        (fcntl_int K fildes cmd s).2.errno = (cFcntlCall K fildes cmd [] s).2.errno) ∧
      (∀ fildes cmd fl,
        (fcntl_int_flock K fildes cmd fl s).1 = (cFcntlCall K fildes cmd [VarArg.ptr fl] s).1 ∧
        (fcntl_int_flock K fildes cmd fl s).2.errno = (cFcntlCall K fildes cmd [VarArg.ptr fl] s).2.errno) ∧
      (∀ fildes cmd arg,
        (fcntl_int_long K fildes cmd arg s).1 = (cFcntlCall K fildes cmd [VarArg.long arg] s).1 ∧
        (fcntl_int_long K fildes cmd arg s).2.errno = (cFcntlCall K fildes cmd [VarArg.long arg] s).2.errno) ∧
      (∀ fd request,
        (ioctl_long K fd request s).1 = (cIoctlCall K fd request [] s).1 ∧
        (ioctl_long K fd request s).2.errno = (cIoctlCall K fd request [] s).2.errno) ∧
      (∀ fd request data,
        (ioctl_long_void K fd request data s).1 = (cIoctlCall K fd request [VarArg.ptr data] s).1 ∧
        (ioctl_long_void K fd request data s).2.errno = (cIoctlCall K fd request [VarArg.ptr data] s).2.errno) :=
  fun _ _ _ =>
    ⟨fun _ _ => ⟨rfl, rfl⟩, fun _ _ _ => ⟨rfl, rfl⟩, fun _ _ => ⟨rfl, rfl⟩,
     fun _ _ _ => ⟨rfl, rfl⟩, fun _ _ _ => ⟨rfl, rfl⟩, fun _ _ => ⟨rfl, rfl⟩,
     fun _ _ _ => ⟨rfl, rfl⟩⟩

/-- C2 counterexample: the header `shims.h` exposes seven operations, not
six, so the claim "exposes exactly six operations" is false of the
interface as declared. -/
theorem shim_interface_not_six :
    shimInterface.length = 7 ∧ shimInterface.length ≠ 6 := by
  decide

/-- C2 (amended): the Syscall Shim Layer exposes exactly seven distinct
operations, each a direct, unconditional forward to one POSIX call
(`open`, `fcntl` or `ioctl`) with the shim's exact arguments. -/
theorem shim_interface_seven_forwards :
    shimInterface.length = 7 ∧ shimInterface.Nodup ∧
    (∀ (K : Kernel) (ctx : CallCtx) (s : KState),
      (∀ path oflag,
        open_int K ctx path oflag s = cOpenCall K ctx path oflag [] s) ∧
      (∀ path oflag mode,
        open_int_mode K ctx path oflag mode s = cOpenCall K ctx path oflag [mode] s) ∧
      (∀ fildes cmd,
        fcntl_int K fildes cmd s = cFcntlCall K fildes cmd [] s) ∧
      (∀ fildes cmd fl,
        fcntl_int_flock K fildes cmd fl s = cFcntlCall K fildes cmd [VarArg.ptr fl] s) ∧
      (∀ fildes cmd arg,
        fcntl_int_long K fildes cmd arg s = cFcntlCall K fildes cmd [VarArg.long arg] s) ∧
      (∀ fd request,
        ioctl_long K fd request s = cIoctlCall K fd request [] s) ∧
      (∀ fd request data,
        ioctl_long_void K fd request data s = cIoctlCall K fd request [VarArg.ptr data] s)) := by
  refine ⟨rfl, by decide, fun K ctx s => ?_⟩
  exact ⟨fun _ _ => rfl, fun _ _ _ => rfl, fun _ _ => rfl, fun _ _ _ => rfl,
         fun _ _ _ => rfl, fun _ _ => rfl, fun _ _ _ => rfl⟩

/-- C3: for every path and every flags value, `open_int path flags`
returns exactly the result of directly invoking the two-argument form of
the underlying open call with the same path and flags, in every state. -/
theorem open_int_refines_two_arg_open :
    ∀ (K : Kernel) (ctx : CallCtx) (path : String) (oflag : Int) (s : KState),
      open_int K ctx path oflag s = specOpenTwoArg K ctx path oflag s :=
  fun _ _ _ _ _ => rfl

/-- C4: for every path, flags and mode, `open_int_mode path flags mode`
returns exactly the result of the three-argument form of the underlying
open call with those same arguments, in every state. -/
theorem open_int_mode_refines_three_arg_open :
    ∀ (K : Kernel) (ctx : CallCtx) (path : String) (oflag : Int) (mode : Nat)
      (s : KState),
      open_int_mode K ctx path oflag mode s = specOpenThreeArg K ctx path oflag mode s :=
  fun _ _ _ _ _ _ => rfl

/-- C5: for every descriptor, command and lock-record pointer,
`fcntl_int_flock` returns exactly the result of the underlying fcntl call
invoked with the same descriptor, command and the identical (unmodified,
uncopied) lock-record pointer, in every state. -/
theorem fcntl_int_flock_refines_fcntl :
    ∀ (K : Kernel) (fildes : Int) (cmd : Int) (fl : Nat) (s : KState),
      fcntl_int_flock K fildes cmd fl s = specFcntlWithFlock K fildes cmd fl s :=
  fun _ _ _ _ _ => rfl

/-- C6: for every descriptor, command and long-integer argument,
`fcntl_int_long` returns exactly the result of the underlying fcntl call
invoked with the same long-integer argument, in every state. -/
theorem fcntl_int_long_refines_fcntl :
    ∀ (K : Kernel) (fildes : Int) (cmd : Int) (arg : Int) (s : KState),
      fcntl_int_long K fildes cmd arg s = specFcntlWithLong K fildes cmd arg s :=
  fun _ _ _ _ _ => rfl

/-- C7: for every descriptor and unsigned-long request code, `ioctl_long`
returns exactly the result of the underlying ioctl call invoked with those
two arguments and no extra (third) argument, in every state. -/
theorem ioctl_long_refines_ioctl :
    ∀ (K : Kernel) (fd : Int) (request : Nat) (s : KState),
      ioctl_long K fd request s = specIoctlNoExtra K fd request s :=
  fun _ _ _ _ => rfl

/-- C8: calling `open_int` is, for every operating system, identical to a
direct native two-argument open call; in particular, on the sample system,
opening a path that names no existing entry with the read-only flag
returns -1 and sets errno to ENOENT, exactly as the direct native call
does. -/
theorem open_int_missing_path_enoent (ctx : CallCtx) (path : String)
    (s : KState) (hmiss : (s.fs.map Prod.fst).contains path = false) :
    (∀ K : Kernel,
      open_int K ctx path O_RDONLY s = cOpenCall K ctx path O_RDONLY [] s) ∧
    open_int modelKernel ctx path O_RDONLY s = (-1, { s with errno := ENOENT }) := by
  refine ⟨fun K => rfl, ?_⟩
  simp only [open_int, cOpenCall, modelKernel, modelNeedsMode, O_RDONLY]
  rw [hmiss]
  simp

/-- C8 witness: on the empty file system, `open_int` of the missing path
"missing" with the read-only flag yields -1 with errno ENOENT. -/
theorem open_int_missing_path_enoent_witness :
    open_int modelKernel ⟨0⟩ "missing" O_RDONLY ⟨0, []⟩ =
      (-1, { errno := ENOENT, fs := [] }) :=
  (open_int_missing_path_enoent ⟨0⟩ "missing" ⟨0, []⟩ (by decide)).2

/-- C9: `open_int` always invokes the underlying open with no variadic
argument; when the flags require a mode, the mode the native open reads is
the indeterminate word of the call context (unspecified stack junk, as the
concrete inequality on the sample system shows); when the flags do not
require a mode, the shim's behaviour is fully defined, independent of the
call context. -/
theorem open_int_mode_unspecified (K : Kernel) (ctx ctx₂ : CallCtx)
    (path : String) (oflag : Int) (s : KState) :
    open_int K ctx path oflag s = cOpenCall K ctx path oflag [] s ∧
    (K.needsMode oflag = true →
      open_int K ctx path oflag s = K.sysOpen path oflag ctx.stackJunk s) ∧
    (K.needsMode oflag = false →
      open_int K ctx path oflag s = open_int K ctx₂ path oflag s) ∧
    open_int modelKernel ⟨1⟩ "p" 64 ⟨0, []⟩ ≠ open_int modelKernel ⟨2⟩ "p" 64 ⟨0, []⟩ := by
  refine ⟨rfl, fun h => ?_, fun h => ?_, by decide⟩
  · simp [open_int, cOpenCall, h]
  · simp [open_int, cOpenCall, h]

/-- C9 witness: on the sample system, flag value 64 requires a mode and
`open_int` then hands the kernel the context's indeterminate word, while
flag value 0 requires none and `open_int` gives identical results under
different contexts. -/
theorem open_int_mode_unspecified_witness :
    (modelKernel.needsMode 64 = true ∧
      open_int modelKernel ⟨9⟩ "p" 64 ⟨0, []⟩ = modelKernel.sysOpen "p" 64 9 ⟨0, []⟩) ∧
    (modelKernel.needsMode 0 = false ∧
      open_int modelKernel ⟨9⟩ "p" 0 ⟨0, []⟩ = open_int modelKernel ⟨5⟩ "p" 0 ⟨0, []⟩) :=
  ⟨⟨rfl, (open_int_mode_unspecified modelKernel ⟨9⟩ ⟨5⟩ "p" 64 ⟨0, []⟩).2.1 rfl⟩,
   ⟨rfl, (open_int_mode_unspecified modelKernel ⟨9⟩ ⟨5⟩ "p" 0 ⟨0, []⟩).2.2.1 rfl⟩⟩

/-- C10: `fcntl_int_flock` and `ioctl_long_void` validate nothing about
their pointer argument: every pointer value — the null pointer (address 0)
included — is forwarded verbatim to the native call, so any rejection of
an invalid pointer can only come from the operating system's return value
and error state, never from the shim itself. -/
theorem pointer_args_forwarded_unchecked :
    ∀ (K : Kernel) (s : KState),
      (∀ fildes cmd fl,
        fcntl_int_flock K fildes cmd fl s = K.sysFcntl fildes cmd [VarArg.ptr fl] s) ∧
      (∀ fd request data,
        ioctl_long_void K fd request data s = K.sysIoctl fd request [VarArg.ptr data] s) ∧
      (∀ fildes cmd,
        fcntl_int_flock K fildes cmd 0 s = K.sysFcntl fildes cmd [VarArg.ptr 0] s) ∧
      (∀ fd request,
        ioctl_long_void K fd request 0 s = K.sysIoctl fd request [VarArg.ptr 0] s) :=
  fun _ _ =>
    ⟨fun _ _ _ => rfl, fun _ _ _ => rfl, fun _ _ => rfl, fun _ _ => rfl⟩

end LibmcpShims
